import Mathlib

/-!
# Verification of AutoModemAdmin (`modems.py`, `nononesdefaultdict.py`)

A shallow embedding of the device-abstraction layer of AutoModemAdmin:
the `NoNonesDefaultDict` credential store, the abstract `AuthModem`
(login / session lifecycle, the `requires_authentication` and
`refresh_cookie` decorators), and the concrete `ModemTG1682G`
(`authenticate`, `is_authenticated`, `reboot`, `get_page`) together with
the factory function `get`.

Python values that may be `None` are modelled as `Option String`
(`none` = Python `None`).  Fallible Python code is modelled with
`Except`.  HTTP traffic is modelled by passing the network's behaviour
as an explicit oracle; the requests actually issued by the code are
reified as `HttpRequest` records built exactly as the source builds
them (in particular `str.join` is modelled faithfully by `pythonJoin`).
-/

namespace AutoModemAdmin

/-- Python exceptions raised by the embedded code paths. -/
inductive PyErr where
  | keyError
  | typeError
  deriving DecidableEq, Repr

/-! ## `nononesdefaultdict.py` : `NoNonesDefaultDict`

The store is an association list `String → Option String`; a stored
`none` models a Python `None` value (the class promises this never
happens).  The default factory used throughout the program is
`lambda: ''`. -/

/-- The underlying mapping of a `NoNonesDefaultDict` with the
empty-string factory: keys to (possibly `None`) Python values. -/
def Store := List (String × Option String)

instance : DecidableEq Store := by
  unfold Store; infer_instance

/-- Find the value stored under key `k` (the mapping read that every
`dict` primitive of `nononesdefaultdict.py` builds on). -/
def storeLookup (k : String) : Store → Option (Option String)
  | [] => none
  | p :: rest => if p.1 = k then some p.2 else storeLookup k rest

/-- Delete every binding of key `k` (the effect of `dict.pop(k)` /
overwriting on the association-list representation). -/
def storeRemove (k : String) : Store → Store
  | [] => []
  | p :: rest => if p.1 = k then storeRemove k rest else p :: storeRemove k rest

/-- `d[key]` on the `NoNonesDefaultDict`: a present key returns its
stored value; a missing key returns the factory default `''`
(`defaultdict.__missing__`). -/
def nnGetItem (d : Store) (k : String) : Option String :=
  match storeLookup k d with
  | some v => v
  | none => some ""

/-- `d[key] = value` (`NoNonesDefaultDict.__setitem__`): assigning
`None` pops the key (raising `KeyError` if the key is absent, since
`dict.pop` without a default does); any other value is stored
normally. -/
def nnSetItem (d : Store) (k : String) (v : Option String) : Except PyErr Store :=
  match v with
  | none =>
      if (storeLookup k d).isSome then
        .ok (storeRemove k d)
      else
        .error .keyError
  | some s => .ok ((k, some s) :: storeRemove k d)

/-- Run a sequence of `__setitem__` operations on a store. -/
def nnRunSets (ops : List (String × Option String)) (d : Store) : Except PyErr Store :=
  match ops with
  | [] => .ok d
  | (k, v) :: rest =>
      match nnSetItem d k v with
      | .error e => .error e
      | .ok d2 => nnRunSets rest d2

/-- The `AuthModem.credentials` setter: a fresh
`NoNonesDefaultDict(lambda: '')` populated by `d[key] = val` for each
item of the supplied dictionary, in order. -/
def credentials_setter (c : List (String × Option String)) : Except PyErr Store :=
  nnRunSets c []

/-! ## Cookies and `is_authenticated`

A cookie's `expires` attribute is `None`, an epoch timestamp, or — as
written by `refresh_cookie` in this code base — an ISO-8601 *string*
(`isoStr t` stands for the ISO rendering of time `t`).
`http.cookiejar.Cookie.is_expired` compares `expires <= now`, which on
a string raises `TypeError`. -/

/-- The value of a cookie's `expires` attribute. -/
inductive ExpiresVal where
  | noneE
  | epoch (t : Int)
  | isoStr (t : Int)
  deriving DecidableEq, Repr

/-- Does the `expires` attribute hold an ISO-string (non-numeric) value? -/
def ExpiresVal.isIso : ExpiresVal → Bool
  | .isoStr _ => true
  | _ => false

/-- One cookie of the session's cookie jar. -/
structure Cookie where
  name : String
  expires : ExpiresVal
  deriving DecidableEq, Repr

/-- `Cookie.is_expired(now)` from `http.cookiejar`: no expiry means not
expired; a numeric expiry is expired iff `expires <= now`; a string
expiry raises `TypeError` on the comparison. -/
def is_expired (c : Cookie) (now : Int) : Except PyErr Bool :=
  match c.expires with
  | .noneE => .ok false
  | .epoch t => .ok (decide (t ≤ now))
  | .isoStr _ => .error .typeError

/-- `ModemTG1682G.AUTHCOOKIE_NAME`. -/
def AUTHCOOKIE_NAME : String := "PHPSESSID"

/-- `ModemTG1682G.INTERNAL_COOKIE_EXPIRY` (seconds). -/
def INTERNAL_COOKIE_EXPIRY : Int := 10 * 60

/-- `ModemTG1682G.is_authenticated`: scan the session's cookies; return
`True` at the first cookie named `PHPSESSID` that is not expired
(`and` short-circuits, so `is_expired` only runs on name matches);
return `False` after the loop. -/
def is_authenticated (cookies : List Cookie) (now : Int) : Except PyErr Bool :=
  match cookies with
  | [] => .ok false
  | c :: rest =>
      if c.name = AUTHCOOKIE_NAME then
        match is_expired c now with
        | .error e => .error e
        | .ok true => is_authenticated rest now
        | .ok false => .ok true
      else
        is_authenticated rest now

/-- A cookie that counts as a valid (unexpired) authentication token at
time `now`: numeric-or-absent expiry that has not passed. -/
def cookieUnexpired (c : Cookie) (now : Int) : Bool :=
  match c.expires with
  | .noneE => true
  | .epoch t => decide (now < t)
  | .isoStr _ => false

/-! ## HTTP layer

`str.join` and the request records built at each call site of
`modems.py`. -/

/-- Python `sep.join(s)` where `s` is a *string* (an iterable of its
characters): the characters of `s` interleaved with `sep`. -/
def pythonJoin (sep : String) (s : String) : String :=
  String.intercalate sep (s.toList.map (fun c => String.singleton c))

/-- `Modem.TIMEOUT_LIMIT` (seconds). -/
def TIMEOUT_LIMIT : ℚ := 10

/-- The arguments of one `requests` call as issued by the source:
HTTP verb, the URL the code computed, form data, the `timeout=`
keyword if passed, and the `verify=` flag. -/
structure HttpRequest where
  verb : String
  url : String
  data : List (String × Option String)
  timeout : Option ℚ
  verify : Bool
  deriving DecidableEq, Repr

/-- The POST issued by `ModemTG1682G.authenticate`:
`url = 'https://'.join(self.ip_address).join("/check.php")`, the
stored credentials as form data, `timeout=TIMEOUT_LIMIT`,
`verify=not self.ignore_cert`. -/
def authenticateRequest (ip : String) (ignore_cert : Bool) (creds : Store) : HttpRequest :=
  { verb := "POST"
    url := pythonJoin (pythonJoin "https://" ip) "/check.php"
    data := creds
    timeout := some TIMEOUT_LIMIT
    verify := !ignore_cert }

/-- The POST issued by `ModemTG1682G.reboot`:
`url = 'https://'.join(self.ip_address).join('/actionHandler/ajaxSet_mta_Line_Diagnostics.php')`,
fixed form data, **no `timeout=` keyword**, `verify=not self.ignore_cert`. -/
def rebootRequest (ip : String) (ignore_cert : Bool) : HttpRequest :=
  { verb := "POST"
    url := pythonJoin (pythonJoin "https://" ip) "/actionHandler/ajaxSet_mta_Line_Diagnostics.php"
    data := [("get_statusx", some "false"), ("restore_reboot", some "true")]
    timeout := none
    verify := !ignore_cert }

/-- The GET issued by `ModemTG1682G.get_page`:
`url = "https://".join(self.ip_address).join("/").join(page)`, **no
`timeout=` keyword**, `verify=not self.ignore_cert`. -/
def get_pageRequest (ip : String) (page : String) (ignore_cert : Bool) : HttpRequest :=
  { verb := "GET"
    url := pythonJoin (pythonJoin (pythonJoin "https://" ip) "/") page
    data := []
    timeout := none
    verify := !ignore_cert }

/-! ## `ModemTG1682G.authenticate` -/

/-- The transport-level failures of `requests` (subclasses of
`requests.RequestException` other than credential rejection). -/
inductive TransportError where
  | timeout
  | connectionError
  | sslError
  deriving DecidableEq, Repr

/-- A `requests` response as far as `authenticate` inspects it. -/
structure Response where
  ok : Bool
  deriving DecidableEq, Repr

/-- How a call to `authenticate` can terminate abnormally. -/
inductive AuthFail where
  | invalidCredentialsError
  | requestException (e : TransportError)
  | py (e : PyErr)
  deriving DecidableEq, Repr

/-- The network's behaviour for one request: either a transport error,
or a response together with the session's cookie jar after the
response's `Set-Cookie` handling. -/
def NetOracle := HttpRequest → Except TransportError (Response × List Cookie)

/-- `ModemTG1682G.authenticate`: POST the stored credentials to the
computed check-URL; a transport error propagates; on a response,
`if response.ok and not self.is_authenticated(): raise
InvalidCredentialsError()` (short-circuit: `is_authenticated` only
runs when `response.ok`).  Returns the session's cookie jar after the
call. -/
def authenticate (ip : String) (ignore_cert : Bool) (creds : Store)
    (net : NetOracle) (now : Int) : Except AuthFail (List Cookie) :=
  match net (authenticateRequest ip ignore_cert creds) with
  | .error e => .error (.requestException e)
  | .ok (response, jar) =>
      if response.ok then
        match is_authenticated jar now with
        | .error e => .error (.py e)
        | .ok true => .ok jar
        | .ok false => .error .invalidCredentialsError
      else
        .ok jar

/-! ## `AuthModem`: construction, login, session lifecycle

`requests.Session` objects are modelled by identity: a `Nat` id, with
`nextId` the allocator for fresh session objects.  Session-lifecycle
side effects are reified as a trace of `SessEvent`s. -/

/-- The configuration dictionary handed to the factory / constructors
(`dict.get` on a missing key yields `None`, hence `Option`). -/
structure Config where
  ip_address : Option String
  username : Option String
  password : Option String
  ignore_cert : Option Bool
  deriving DecidableEq, Repr

/-- The state of an `AuthModem` (also of the concrete `ModemTG1682G`). -/
structure AuthModemState where
  ip_address : Option String
  ignore_cert : Bool
  sessionId : Nat
  nextId : Nat
  credentials : Store
  deriving DecidableEq

/-- Session-lifecycle events emitted by `login`. -/
inductive SessEvent where
  | closeSession (id : Nat)
  | newSession (id : Nat)
  | authCall
  deriving DecidableEq, Repr

/-- `AuthModem.__init__`: store the ip, `ignore_cert or False`, open a
fresh session, then run the credentials setter on
`{'username': configurations.get('username'), 'password':
configurations.get('password')}` — which raises `KeyError` when a
value is `None`. -/
def authModemInit (cfg : Config) : Except PyErr AuthModemState :=
  match credentials_setter [("username", cfg.username), ("password", cfg.password)] with
  | .error e => .error e
  | .ok creds =>
      .ok { ip_address := cfg.ip_address
            ignore_cert := cfg.ignore_cert.getD false
            sessionId := 0
            nextId := 1
            credentials := creds }

/-- `AuthModem.login(username, password)`: when the supplied pair
differs from the stored one, close the current session, open a fresh
one and replace the credentials; in both cases `self.authenticate()`
is then called (emitted as `SessEvent.authCall`). -/
def login (s : AuthModemState) (username password : String) :
    Except PyErr (AuthModemState × List SessEvent) :=
  if nnGetItem s.credentials "username" ≠ some username ∨
      nnGetItem s.credentials "password" ≠ some password then
    match credentials_setter [("username", some username), ("password", some password)] with
    | .error e => .error e
    | .ok creds =>
        .ok ({ s with sessionId := s.nextId, nextId := s.nextId + 1, credentials := creds },
          [.closeSession s.sessionId, .newSession s.nextId, .authCall])
  else
    .ok (s, [.authCall])

/-- The multiset of live sessions after processing a trace of events,
starting from `live`: `closeSession` removes one occurrence,
`newSession` adds one. -/
def liveAfter (live : List Nat) : List SessEvent → List Nat
  | [] => live
  | .closeSession i :: es => liveAfter (live.erase i) es
  | .newSession i :: es => liveAfter (live ++ [i]) es
  | .authCall :: es => liveAfter live es

/-- The largest number of simultaneously live sessions at any point
while processing a trace of events, starting from `live`. -/
def maxLive (live : List Nat) : List SessEvent → Nat
  | [] => live.length
  | .closeSession i :: es => max live.length (maxLive (live.erase i) es)
  | .newSession i :: es => max live.length (maxLive (live ++ [i]) es)
  | .authCall :: es => max live.length (maxLive live es)

/-! ## The decorators -/

/-- Which wrapped primitives the `requires_authentication` wrapper
invokes, in order. -/
inductive CallEvent where
  | authCall
  | methodCall
  deriving DecidableEq, Repr

/-- `AuthModem.requires_authentication`: the returned
`authenticated_method` first calls `self.authenticate()` if
`self.is_authenticated()` is false, then runs the wrapped method and
returns its result.  The trace records the calls the wrapper makes. -/
def requires_authentication {σ ρ : Type} (is_authd : σ → Bool) (auth : σ → σ)
    (method : σ → σ × ρ) (s : σ) : (σ × ρ) × List CallEvent :=
  if !(is_authd s) then
    ((method (auth s)), [.authCall, .methodCall])
  else
    ((method s), [.methodCall])

/-- A device state as seen by the `refresh_cookie` wrapper: the
session's cookie jar plus the rest of the state. -/
structure SessState (σ : Type) where
  inner : σ
  cookies : List Cookie
  deriving DecidableEq

/-- `AuthModem.refresh_cookie(cookiename, expires_in_x)`: the returned
`refreshing_method` runs the wrapped method first (an exception
propagates untouched), then sets, on every session cookie named
`cookiename`, `c.expires = (datetime.datetime.now() +
datetime.timedelta(seconds=expires_in_x)).isoformat()` — an ISO-8601
*string*, modelled as `ExpiresVal.isoStr (now + expires_in_x)`. -/
def refresh_cookie {σ ρ ε : Type} (cookiename : String) (expires_in_x : Int)
    (method : SessState σ → Except ε (SessState σ × ρ)) (now : Int)
    (s : SessState σ) : Except ε (SessState σ × ρ) :=
  match method s with
  | .error e => .error e
  | .ok (s1, r) =>
      .ok ({ s1 with cookies := s1.cookies.map fun c =>
              if c.name = cookiename then { c with expires := .isoStr (now + expires_in_x) }
              else c }, r)

/-! ## The factory `get` -/

/-- How a call to `modems.get` can fail. -/
inductive GetError where
  | unknownModemModelError
  | py (e : PyErr)
  deriving DecidableEq, Repr

/-- The device instances the factory can produce. -/
inductive ModemInstance where
  | tg1682g (s : AuthModemState)
  deriving DecidableEq

/-- `modems.get(model, configurations)`: construct a `ModemTG1682G`
when the model string is `"TG1682G"`, otherwise raise
`UnknownModemModelError`. -/
def get (model : String) (cfg : Config) : Except GetError ModemInstance :=
  if model = "TG1682G" then
    match authModemInit cfg with
    | .error e => .error (.py e)
    | .ok s => .ok (.tg1682g s)
  else
    .error .unknownModemModelError

/-! ## Theorems -/

/-- Unfolding equation for `is_authenticated` on a cookie whose
`expires` value is numeric or absent. -/
theorem is_authenticated_cons_noniso (c : Cookie) (rest : List Cookie) (now : Int)
    (hc : c.expires.isIso = false) :
    is_authenticated (c :: rest) now =
      if decide (c.name = AUTHCOOKIE_NAME) && cookieUnexpired c now then .ok true
      else is_authenticated rest now := by
  by_cases hn : c.name = AUTHCOOKIE_NAME
  · cases hexp : c.expires with
    | noneE => simp [is_authenticated, hn, is_expired, hexp, cookieUnexpired]
    | epoch t =>
      by_cases ht : t ≤ now
      · simp [is_authenticated, hn, is_expired, hexp, ht, cookieUnexpired, not_lt.mpr ht]
      · simp [is_authenticated, hn, is_expired, hexp, ht, cookieUnexpired, lt_of_not_le ht]
    | isoStr t => rw [hexp] at hc; simp [ExpiresVal.isIso] at hc
  · simp [is_authenticated, hn]

/-- `is_authenticated` as a scan for a valid auth cookie, on a jar with
numeric-or-absent expiries. -/
theorem is_authenticated_eq_any (cookies : List Cookie) (now : Int)
    (h : ∀ c ∈ cookies, c.expires.isIso = false) :
    is_authenticated cookies now =
      .ok (cookies.any fun c => decide (c.name = AUTHCOOKIE_NAME) && cookieUnexpired c now) := by
  induction cookies with
  | nil => rfl
  | cons c rest ih =>
    have hc : c.expires.isIso = false := h c (List.mem_cons_self c rest)
    have ih2 := ih fun x hx => h x (List.mem_cons_of_mem c hx)
    rw [is_authenticated_cons_noniso c rest now hc]
    by_cases hb : (decide (c.name = AUTHCOOKIE_NAME) && cookieUnexpired c now) = true
    · simp [hb]
    · simp only [hb, if_neg, Bool.false_eq_true, not_false_iff, ite_false, ih2, List.any_cons]
      simp [Bool.not_eq_true] at hb
      simp [hb]

/-- C3: for every `ModemTG1682G` session state (every cookie jar whose
expiry attributes are numeric or absent, as the HTTP layer produces
them, at every current time), `is_authenticated` returns true when
some unexpired `PHPSESSID` cookie exists and false otherwise (no
`PHPSESSID` cookie present, or every one expired). -/
theorem is_authenticated_spec (cookies : List Cookie) (now : Int)
    (h : ∀ c ∈ cookies, c.expires.isIso = false) :
    (is_authenticated cookies now = .ok true ↔
      ∃ c ∈ cookies, c.name = AUTHCOOKIE_NAME ∧ cookieUnexpired c now = true) ∧
    (is_authenticated cookies now = .ok false ↔
      ¬ ∃ c ∈ cookies, c.name = AUTHCOOKIE_NAME ∧ cookieUnexpired c now = true) := by
  rw [is_authenticated_eq_any cookies now h]
  constructor
  · simp [List.any_eq_true]
  · simp [List.any_eq_false]

/-- Witness for C3 at a concrete session state. -/
theorem is_authenticated_spec_witness :
    ((∀ c ∈ [Cookie.mk "PHPSESSID" (.epoch 100)], c.expires.isIso = false) ∧
      (is_authenticated [Cookie.mk "PHPSESSID" (.epoch 100)] 50 = .ok true ↔
        ∃ c ∈ [Cookie.mk "PHPSESSID" (.epoch 100)],
          c.name = AUTHCOOKIE_NAME ∧ cookieUnexpired c 50 = true) ∧
      (is_authenticated [Cookie.mk "PHPSESSID" (.epoch 100)] 50 = .ok false ↔
        ¬ ∃ c ∈ [Cookie.mk "PHPSESSID" (.epoch 100)],
          c.name = AUTHCOOKIE_NAME ∧ cookieUnexpired c 50 = true)) :=
  ⟨by decide, is_authenticated_spec [Cookie.mk "PHPSESSID" (.epoch 100)] 50 (by decide)⟩

/-- C1: the `requires_authentication` wrapper calls `authenticate`
exactly once when `is_authenticated` is false and zero times when it
is true, in both cases then executes the wrapped method (last event)
and returns its result, computed on the possibly-authenticated
state. -/
theorem requires_authentication_spec {σ ρ : Type} (is_authd : σ → Bool) (auth : σ → σ)
    (method : σ → σ × ρ) (s : σ) :
    ((requires_authentication is_authd auth method s).2.count CallEvent.authCall
        = if is_authd s then 0 else 1) ∧
    ((requires_authentication is_authd auth method s).2.count CallEvent.methodCall = 1) ∧
    ((requires_authentication is_authd auth method s).2.getLast? = some CallEvent.methodCall) ∧
    ((requires_authentication is_authd auth method s).1
        = method (if is_authd s then s else auth s)) := by
  cases h : is_authd s <;> simp [requires_authentication, h]

set_option maxRecDepth 4096 in
/-- C7: the URL actually computed by `authenticate` via
`'https://'.join(self.ip_address).join("/check.php")` is not
`"https://" + ip + "/check.php"`: at ip `10.0.0.1` it begins with `/`
(the first character of `"/check.php"`) and interleaves the previous
join result between the characters of `"/check.php"`.  The request is
still a POST of the stored credentials, and success is judged by the
session cookie, not the HTTP status. -/
theorem authenticate_url_bug :
    (authenticateRequest "10.0.0.1" false [("username", some "admin")]).url ≠
      "https://10.0.0.1/check.php" ∧
    ((authenticateRequest "10.0.0.1" false [("username", some "admin")]).url.take 9 =
      "/1https:/") ∧
    (authenticateRequest "10.0.0.1" false [("username", some "admin")]).verb = "POST" ∧
    (authenticateRequest "10.0.0.1" false [("username", some "admin")]).data =
      [("username", some "admin")] := by
  refine ⟨by decide, by decide, rfl, rfl⟩

/-- C8: after a successful wrapped action, `refresh_cookie` sets the
matching cookie's `expires` attribute to an ISO-8601 *string* (the
`isoformat()` of now + `expires_in_x`), not to a timestamp; a
subsequent `is_expired` / `is_authenticated` on that cookie raises
`TypeError` instead of comparing times. -/
theorem refresh_cookie_iso_bug :
    refresh_cookie AUTHCOOKIE_NAME INTERNAL_COOKIE_EXPIRY
        (fun s => (.ok (s, ()) : Except PyErr (SessState Unit × Unit))) 1000
        ⟨(), [⟨"PHPSESSID", .epoch 2000⟩, ⟨"other", .epoch 5⟩]⟩ =
      .ok (⟨(), [⟨"PHPSESSID", .isoStr 1600⟩, ⟨"other", .epoch 5⟩]⟩, ()) ∧
    is_expired ⟨"PHPSESSID", .isoStr 1600⟩ 1200 = .error .typeError ∧
    is_authenticated [⟨"PHPSESSID", .isoStr 1600⟩] 1200 = .error .typeError := by
  refine ⟨rfl, rfl, rfl⟩

/-- C9 counterexample: the requests issued by `reboot` and `get_page`
pass no `timeout=` keyword at all, so not every device request is
made with `TIMEOUT_LIMIT`. -/
theorem timeout_claim_counterexample :
    (rebootRequest "10.0.0.1" false).timeout ≠ some TIMEOUT_LIMIT ∧
    (get_pageRequest "10.0.0.1" "index.php" false).timeout ≠ some TIMEOUT_LIMIT ∧
    (rebootRequest "10.0.0.1" false).timeout = none ∧
    (get_pageRequest "10.0.0.1" "index.php" false).timeout = none := by
  refine ⟨by simp [rebootRequest], by simp [get_pageRequest], rfl, rfl⟩

/-- C9 amended: only `authenticate` passes the fixed
`timeout=TIMEOUT_LIMIT` (10 seconds); the `reboot` and `get_page`
requests are issued with no timeout. -/
theorem timeout_spec (ip page : String) (ignore_cert : Bool) (creds : Store) :
    (authenticateRequest ip ignore_cert creds).timeout = some TIMEOUT_LIMIT ∧
    TIMEOUT_LIMIT = 10 ∧
    (rebootRequest ip ignore_cert).timeout = none ∧
    (get_pageRequest ip page ignore_cert).timeout = none :=
  ⟨rfl, rfl, rfl, rfl⟩

/-- The credentials setter on a dictionary with two proper string
values never raises and stores both pairs. -/
theorem credentials_setter_strings (u p : String) :
    credentials_setter [("username", some u), ("password", some p)] =
      .ok [("password", some p), ("username", some u)] := rfl

/-- C4 counterexample: when the login endpoint responds with a non-ok
status and no session cookie results (credentials rejected with e.g.
a 403), `authenticate` raises nothing at all — it does not raise
`InvalidCredentialsError`. -/
theorem invalid_credentials_claim_counterexample :
    authenticate "10.0.0.1" false [] (fun _ => .ok (⟨false⟩, [])) 0 = .ok [] ∧
    authenticate "10.0.0.1" false [] (fun _ => .ok (⟨false⟩, [])) 0 ≠
      .error .invalidCredentialsError := by
  refine ⟨rfl, fun h => ?_⟩
  rw [show authenticate "10.0.0.1" false [] (fun _ => .ok (⟨false⟩, [])) 0
        = (.ok [] : Except AuthFail (List Cookie)) from rfl] at h
  exact Except.noConfusion h

/-- C4 (amended): `authenticate` raises `InvalidCredentialsError`
exactly when the login endpoint's response is delivered with a
successful (`ok`) status and still no unexpired `PHPSESSID` cookie
results; a transport error from the POST propagates as the generic
transport category, unconverted. -/
theorem authenticate_spec (ip : String) (ignore_cert : Bool) (creds : Store)
    (net : NetOracle) (now : Int) :
    (∀ e, net (authenticateRequest ip ignore_cert creds) = .error e →
      authenticate ip ignore_cert creds net now = .error (.requestException e)) ∧
    (∀ response jar, net (authenticateRequest ip ignore_cert creds) = .ok (response, jar) →
      (∀ c ∈ jar, c.expires.isIso = false) →
      (authenticate ip ignore_cert creds net now = .error .invalidCredentialsError ↔
        response.ok = true ∧
          ¬ ∃ c ∈ jar, c.name = AUTHCOOKIE_NAME ∧ cookieUnexpired c now = true)) := by
  constructor
  · intro e he
    simp [authenticate, he]
  · intro response jar hnet hjar
    have hany := is_authenticated_eq_any jar now hjar
    cases hok : response.ok with
    | false => simp [authenticate, hnet, hok]
    | true =>
      cases hb : jar.any (fun c => decide (c.name = AUTHCOOKIE_NAME) && cookieUnexpired c now) with
      | false =>
        have hres : authenticate ip ignore_cert creds net now = .error .invalidCredentialsError := by
          simp [authenticate, hnet, hok, hany, hb]
        rw [hres]
        rw [List.any_eq_false] at hb
        apply iff_of_true rfl
        refine ⟨rfl, ?_⟩
        rintro ⟨c, hc, hname, hunexp⟩
        have := hb c hc
        simp [hname, hunexp] at this
      | true =>
        have hres : authenticate ip ignore_cert creds net now = .ok jar := by
          simp [authenticate, hnet, hok, hany, hb]
        rw [hres]
        rw [List.any_eq_true] at hb
        obtain ⟨c, hc, hcb⟩ := hb
        rw [Bool.and_eq_true, decide_eq_true_iff] at hcb
        apply iff_of_false (fun h => Except.noConfusion h)
        rintro ⟨-, hno⟩
        exact absurd ⟨c, hc, hcb.1, hcb.2⟩ hno

/-- Witness for C4 (amended) at a concrete transport failure and at a
concrete delivered response. -/
theorem authenticate_spec_witness :
    ((∀ e, (fun (_ : HttpRequest) =>
        (.ok (⟨true⟩, []) : Except TransportError (Response × List Cookie)))
          (authenticateRequest "10.0.0.1" false []) = .error e →
      authenticate "10.0.0.1" false [] (fun _ => .ok (⟨true⟩, [])) 0
        = .error (.requestException e)) ∧
    (∀ response jar, (fun (_ : HttpRequest) =>
        (.ok (⟨true⟩, []) : Except TransportError (Response × List Cookie)))
          (authenticateRequest "10.0.0.1" false []) = .ok (response, jar) →
      (∀ c ∈ jar, c.expires.isIso = false) →
      (authenticate "10.0.0.1" false [] (fun _ => .ok (⟨true⟩, [])) 0
          = .error .invalidCredentialsError ↔
        response.ok = true ∧
          ¬ ∃ c ∈ jar, c.name = AUTHCOOKIE_NAME ∧ cookieUnexpired c 0 = true))) :=
  authenticate_spec "10.0.0.1" false [] (fun _ => .ok (⟨true⟩, [])) 0

/-- C5: the factory returns a `ModemTG1682G` exactly for the model
string `"TG1682G"` (given a configuration bundle that carries the
username and password), and raises `UnknownModemModelError` for every
other model string. -/
theorem get_spec (model : String) (cfg : Config)
    (hu : cfg.username.isSome) (hp : cfg.password.isSome) :
    ((∃ s, get model cfg = .ok (.tg1682g s)) ↔ model = "TG1682G") ∧
    (model ≠ "TG1682G" → get model cfg = .error .unknownModemModelError) := by
  obtain ⟨u, hu2⟩ := Option.isSome_iff_exists.mp hu
  obtain ⟨p, hp2⟩ := Option.isSome_iff_exists.mp hp
  have hinit : authModemInit cfg = .ok
      { ip_address := cfg.ip_address, ignore_cert := cfg.ignore_cert.getD false,
        sessionId := 0, nextId := 1,
        credentials := [("password", some p), ("username", some u)] } := by
    simp [authModemInit, hu2, hp2, credentials_setter_strings]
  constructor
  · constructor
    · rintro ⟨s, hs⟩
      by_contra hm
      simp [get, hm] at hs
    · intro hm
      exact ⟨{ ip_address := cfg.ip_address, ignore_cert := cfg.ignore_cert.getD false,
               sessionId := 0, nextId := 1,
               credentials := [("password", some p), ("username", some u)] },
             by simp [get, hm, hinit]⟩
  · intro hm
    simp [get, hm]

/-- Witness for C5 at the known model string and a full configuration
bundle. -/
theorem get_spec_witness :
    ((Config.mk (some "1.2.3.4") (some "admin") (some "pw") (some false)).username.isSome ∧
     (Config.mk (some "1.2.3.4") (some "admin") (some "pw") (some false)).password.isSome) ∧
    (((∃ s, get "TG1682G" (Config.mk (some "1.2.3.4") (some "admin") (some "pw") (some false))
          = .ok (.tg1682g s)) ↔ ("TG1682G" : String) = "TG1682G") ∧
     (("TG1682G" : String) ≠ "TG1682G" →
        get "TG1682G" (Config.mk (some "1.2.3.4") (some "admin") (some "pw") (some false))
          = .error .unknownModemModelError)) :=
  ⟨⟨rfl, rfl⟩,
    get_spec "TG1682G" (Config.mk (some "1.2.3.4") (some "admin") (some "pw") (some false))
      rfl rfl⟩

/-- C2: on `login(username, password)`, a supplied pair equal to the
stored one leaves the session (indeed the whole device state)
unchanged; a differing pair closes the prior session and replaces it
by a fresh one (a session id never seen before), in that order,
before `authenticate` runs; in both cases `authenticate` is the last
event; and starting from the single live session, at no point during
the trace is more than one session live. -/
theorem login_spec (s : AuthModemState) (username password : String)
    (hfresh : s.sessionId < s.nextId) :
    ((nnGetItem s.credentials "username" = some username ∧
      nnGetItem s.credentials "password" = some password) →
      login s username password = .ok (s, [.authCall])) ∧
    (¬(nnGetItem s.credentials "username" = some username ∧
       nnGetItem s.credentials "password" = some password) →
      login s username password =
        .ok (AuthModemState.mk s.ip_address s.ignore_cert s.nextId (s.nextId + 1)
            [("password", some password), ("username", some username)],
          [.closeSession s.sessionId, .newSession s.nextId, .authCall]) ∧
      s.nextId ≠ s.sessionId) ∧
    (∀ s2 evs, login s username password = .ok (s2, evs) →
      evs.getLast? = some .authCall ∧ maxLive [s.sessionId] evs ≤ 1) := by
  have hca := credentials_setter_strings username password
  refine ⟨?_, ?_, ?_⟩
  · rintro ⟨h1, h2⟩
    simp [login, h1, h2]
  · intro hne
    have hcond : nnGetItem s.credentials "username" ≠ some username ∨
        nnGetItem s.credentials "password" ≠ some password := by tauto
    refine ⟨?_, Nat.ne_of_gt hfresh⟩
    rw [login, if_pos hcond, hca]
  · intro s2 evs hok
    by_cases hcond : nnGetItem s.credentials "username" ≠ some username ∨
        nnGetItem s.credentials "password" ≠ some password
    · rw [login, if_pos hcond, hca] at hok
      simp only [Except.ok.injEq, Prod.mk.injEq] at hok
      obtain ⟨-, hevs⟩ := hok
      subst hevs
      refine ⟨rfl, ?_⟩
      simp [maxLive, List.erase_cons_head]
    · rw [login, if_neg hcond] at hok
      simp only [Except.ok.injEq, Prod.mk.injEq] at hok
      obtain ⟨-, hevs⟩ := hok
      subst hevs
      exact ⟨rfl, by simp [maxLive]⟩

/-- Witness for C2 at a concrete device state and a credential change. -/
theorem login_spec_witness :
    (0 : Nat) < 1 ∧
    (((nnGetItem [("password", some "pw"), ("username", some "admin")] "username"
          = some "admin" ∧
       nnGetItem [("password", some "pw"), ("username", some "admin")] "password"
          = some "pw") →
      login (AuthModemState.mk none false 0 1
          [("password", some "pw"), ("username", some "admin")]) "admin" "pw" =
        .ok (AuthModemState.mk none false 0 1
          [("password", some "pw"), ("username", some "admin")], [.authCall])) ∧
    (¬(nnGetItem [("password", some "pw"), ("username", some "admin")] "username"
          = some "admin" ∧
       nnGetItem [("password", some "pw"), ("username", some "admin")] "password"
          = some "pw") →
      login (AuthModemState.mk none false 0 1
          [("password", some "pw"), ("username", some "admin")]) "admin" "pw" =
        .ok (AuthModemState.mk none false 1 2
          [("password", some "pw"), ("username", some "admin")],
          [.closeSession 0, .newSession 1, .authCall]) ∧
      (1 : Nat) ≠ 0) ∧
    (∀ s2 evs, login (AuthModemState.mk none false 0 1
          [("password", some "pw"), ("username", some "admin")]) "admin" "pw"
        = .ok (s2, evs) →
      evs.getLast? = some .authCall ∧ maxLive [0] evs ≤ 1)) :=
  ⟨by decide,
    login_spec (AuthModemState.mk none false 0 1
      [("password", some "pw"), ("username", some "admin")]) "admin" "pw" (by decide)⟩

/-- After removing every binding of `k`, looking up `k` finds
nothing. -/
theorem storeLookup_remove_self (d : Store) (k : String) :
    storeLookup k (storeRemove k d) = none := by
  induction d with
  | nil => rfl
  | cons p rest ih =>
    by_cases hp : p.1 = k
    · simp [storeRemove, hp, ih]
    · simp [storeRemove, storeLookup, hp, ih]

/-- Removing the bindings of `k2` does not change the lookup of a
different key `k`. -/
theorem storeLookup_remove_other (d : Store) (k k2 : String) (hne : k ≠ k2) :
    storeLookup k (storeRemove k2 d) = storeLookup k d := by
  induction d with
  | nil => rfl
  | cons p rest ih =>
    by_cases hp : p.1 = k2
    · have hk : p.1 ≠ k := by rw [hp]; exact Ne.symm hne
      simp [storeRemove, storeLookup, hp, hk, ih, Ne.symm hne]
    · simp [storeRemove, storeLookup, hp, ih]

/-- A successful `None`-assignment to `k` makes a read of `k` return
the factory default `''`. -/
theorem nnGetItem_after_pop (d d2 : Store) (k : String)
    (h : nnSetItem d k none = .ok d2) : nnGetItem d2 k = some "" := by
  unfold nnSetItem at h
  by_cases hl : (storeLookup k d).isSome
  · simp only [hl, if_true, Except.ok.injEq] at h
    subst h
    simp [nnGetItem, storeLookup_remove_self]
  · simp [hl] at h

/-- A `__setitem__` on another key does not change the read of `k`. -/
theorem nnGetItem_setItem_ne (d d2 : Store) (k k2 : String) (v : Option String)
    (hne : k ≠ k2) (h : nnSetItem d k2 v = .ok d2) :
    nnGetItem d2 k = nnGetItem d k := by
  unfold nnSetItem at h
  cases v with
  | none =>
    by_cases hl : (storeLookup k2 d).isSome
    · simp only [hl, if_true, Except.ok.injEq] at h
      subst h
      simp [nnGetItem, storeLookup_remove_other d k k2 hne]
    · simp [hl] at h
  | some s =>
    simp only [Except.ok.injEq] at h
    subst h
    simp [nnGetItem, storeLookup, Ne.symm hne, storeLookup_remove_other d k k2 hne]

/-- One `__setitem__` step keeps the store free of `None` values (as
observed through reads). -/
theorem nnSetItem_no_none (d d2 : Store) (k2 : String) (v : Option String)
    (hd : ∀ k, nnGetItem d k ≠ none) (h : nnSetItem d k2 v = .ok d2) :
    ∀ k, nnGetItem d2 k ≠ none := by
  intro k
  by_cases hk : k = k2
  · subst hk
    cases v with
    | none => rw [nnGetItem_after_pop d d2 k h]; exact fun hc => Option.noConfusion hc
    | some s =>
      unfold nnSetItem at h
      simp only [Except.ok.injEq] at h
      subst h
      simp [nnGetItem, storeLookup]
  · rw [nnGetItem_setItem_ne d d2 k k2 v hk h]
    exact hd k

/-- Running a sequence of `__setitem__` operations keeps the store free
of `None` values. -/
theorem nnRunSets_no_none (ops : List (String × Option String)) (d d2 : Store)
    (h : nnRunSets ops d = .ok d2) (hd : ∀ k, nnGetItem d k ≠ none) :
    ∀ k, nnGetItem d2 k ≠ none := by
  induction ops generalizing d with
  | nil =>
    unfold nnRunSets at h
    simp only [Except.ok.injEq] at h
    subst h
    exact hd
  | cons op rest ih =>
    unfold nnRunSets at h
    cases hset : nnSetItem d op.1 op.2 with
    | error e => rw [hset] at h; exact absurd h (fun hc => Except.noConfusion hc)
    | ok d1 =>
      rw [hset] at h
      exact ih d1 h (nnSetItem_no_none d d1 op.1 op.2 hd hset)

/-- Operations that never touch `k` leave the read of `k` unchanged. -/
theorem nnRunSets_avoid (ops : List (String × Option String)) (d d2 : Store) (k : String)
    (h : nnRunSets ops d = .ok d2) (havoid : ∀ op ∈ ops, op.1 ≠ k) :
    nnGetItem d2 k = nnGetItem d k := by
  induction ops generalizing d with
  | nil =>
    unfold nnRunSets at h
    simp only [Except.ok.injEq] at h
    subst h
    rfl
  | cons op rest ih =>
    unfold nnRunSets at h
    cases hset : nnSetItem d op.1 op.2 with
    | error e => rw [hset] at h; exact absurd h (fun hc => Except.noConfusion hc)
    | ok d1 =>
      rw [hset] at h
      have h1 : nnGetItem d1 k = nnGetItem d k :=
        nnGetItem_setItem_ne d d1 k op.1 op.2
          (Ne.symm (havoid op (List.mem_cons_self op rest))) hset
      rw [ih d1 h (fun o ho => havoid o (List.mem_cons_of_mem op ho)), h1]

/-- C6: on every `NoNonesDefaultDict` with the empty-string factory
reachable by `__setitem__` operations from empty (as the credentials
store is built): reading a key none of the operations ever set
returns `''`; reading a key right after it was (successfully)
assigned `None` returns `''`; and no read of any key ever returns
`None`. -/
theorem nononesdefaultdict_spec (ops : List (String × Option String)) (d : Store) (k : String)
    (hbuild : nnRunSets ops [] = .ok d) :
    ((∀ op ∈ ops, op.1 ≠ k) → nnGetItem d k = some "") ∧
    (∀ d2, nnSetItem d k none = .ok d2 → nnGetItem d2 k = some "") ∧
    nnGetItem d k ≠ none := by
  refine ⟨fun hav => ?_, fun d2 h => nnGetItem_after_pop d d2 k h, ?_⟩
  · rw [nnRunSets_avoid ops [] d k hbuild hav]
    rfl
  · exact nnRunSets_no_none ops [] d hbuild
      (fun k2 hc => Option.noConfusion hc) k

/-- Witness for C6 on a concretely built credentials store. -/
theorem nononesdefaultdict_spec_witness :
    nnRunSets [("username", some "admin"), ("password", some "pw")] [] =
      .ok [("password", some "pw"), ("username", some "admin")] ∧
    (((∀ op ∈ [("username", some "admin"), ("password", some "pw")], op.1 ≠ "other") →
        nnGetItem [("password", some "pw"), ("username", some "admin")] "other" = some "") ∧
      (∀ d2, nnSetItem [("password", some "pw"), ("username", some "admin")] "other" none
          = .ok d2 →
        nnGetItem d2 "other" = some "") ∧
      nnGetItem [("password", some "pw"), ("username", some "admin")] "other" ≠ none) :=
  ⟨rfl, nononesdefaultdict_spec [("username", some "admin"), ("password", some "pw")]
    [("password", some "pw"), ("username", some "admin")] "other" rfl⟩

/-- C10: assigning `None` to a key that is not currently present in a
`NoNonesDefaultDict` raises `KeyError` (`dict.pop` of an absent key);
consequently `AuthModem.__init__` with a configurations mapping whose
`'username'` or `'password'` entry is missing (so `dict.get` yields
`None`) raises `KeyError` from the credentials setter instead of
storing empty-string defaults. -/
theorem nn_none_absent_keyerror (d : Store) (k : String) (cfg : Config)
    (hd : storeLookup k d = none) (hcfg : cfg.username = none ∨ cfg.password = none) :
    nnSetItem d k none = .error .keyError ∧
    authModemInit cfg = .error .keyError := by
  constructor
  · simp [nnSetItem, hd]
  · cases hu : cfg.username with
    | none =>
      simp [authModemInit, credentials_setter, nnRunSets, nnSetItem, hu, storeLookup]
    | some u =>
      have hp : cfg.password = none := by
        rcases hcfg with h | h
        · rw [hu] at h; exact Option.noConfusion h
        · exact h
      simp [authModemInit, credentials_setter, nnRunSets, nnSetItem, hu, hp,
        storeLookup, storeRemove]

/-- Witness for C10 at a concrete store and a configuration missing
its username. -/
theorem nn_none_absent_keyerror_witness :
    (storeLookup "b" [("a", some "x")] = none ∧
      ((Config.mk (some "1.2.3.4") none (some "pw") none).username = none ∨
       (Config.mk (some "1.2.3.4") none (some "pw") none).password = none)) ∧
    (nnSetItem [("a", some "x")] "b" none = .error .keyError ∧
      authModemInit (Config.mk (some "1.2.3.4") none (some "pw") none) = .error .keyError) :=
  ⟨⟨rfl, Or.inl rfl⟩,
    nn_none_absent_keyerror [("a", some "x")] "b"
      (Config.mk (some "1.2.3.4") none (some "pw") none) rfl (Or.inl rfl)⟩

end AutoModemAdmin
